import Mathlib

/-
Verification of the throw-res package (src/src/index.ts): throwable HTTP
responses for Express.  The source is embedded shallowly: Express response
methods are modelled as an effect trace produced by a handler, and the
error-handling middleware is modelled as a function from the caught value
to a trace of dispatch events.
-/

namespace ThrowRes

/-- An opaque Express request object; the handlers built by this package
never inspect it, so it is modelled by an opaque identifier. -/
structure Request where
  id : Nat
deriving Repr, DecidableEq

/-- The JSON value grammar of the source (type Json in src/src/index.ts):
string, number, boolean, null, array, or string-keyed object.  Numbers are
modelled as integers. -/
inductive JsonValue where
  | str (s : String)
  | num (n : Int)
  | bool (b : Bool)
  | null
  | arr (elems : List JsonValue)
  | obj (fields : List (String × JsonValue))

/-- One response-sink primitive invocation, as listed in the host (Express)
interface consumed by the handlers: a status write (res.status), a JSON body
write (res.json, which also sets the content type), a redirect write
(res.redirect), or an invocation of the continuation (next). -/
inductive ResEffect where
  | setStatus (code : Int)
  | jsonWrite (v : JsonValue)
  | redirectWrite (code : Nat) (target : String)
  | nextCall

/-- An Express Handler, modelled as the trace of response-sink effects it
performs for a given request. -/
def Handler : Type := Request → List ResEffect

/-- The host language standard Error value: its observable part is the
message field set by the Error constructor. -/
structure JsError where
  message : String

/-- ThrowableResponse (src/src/index.ts line 65): the class extends Error,
so every instance carries a JsError part, and it stores the handler passed
to the constructor. -/
structure ThrowableResponse extends JsError where
  handler : Handler

/-- The ThrowableResponse constructor (src/src/index.ts lines 84 to 89):
stores the handler and passes the optional message to the Error
superconstructor, where the nullish-coalescing operator substitutes the
generic placeholder only when the argument is absent (null or undefined). -/
def ThrowableResponse.construct (handler : Handler) (msg? : Option String) :
    ThrowableResponse :=
  { message := msg?.getD "Not an error: response thrown"
    handler := handler }

/-- The location argument of ThrowableRedirect (src/src/index.ts line 130)
has type string or URL; the source uses it only through its string
conversion (template interpolation and location.toString()), so a URL is
modelled by the canonical string its toString method yields. -/
inductive Location where
  | str (s : String)
  | url (canonical : String)

/-- The string conversion applied by the source to the location: a string
converts to itself, a URL to its canonical serialization. -/
def Location.toString : Location → String
  | Location.str s => s
  | Location.url canonical => canonical

/-- The redirect status codes enumerated by the type of the status
parameter of the ThrowableRedirect constructor (src/src/index.ts line 130). -/
def redirectStatuses : List Nat := [301, 302, 303, 307, 308]

/-- A status value admitted by the ThrowableRedirect constructor: its
parameter type is the literal union of the five enumerated codes, embedded
as a number together with the membership evidence. -/
def RedirectStatus : Type := { n : Nat // n ∈ redirectStatuses }

/-- The ThrowableRedirect constructor (src/src/index.ts lines 130 to 132):
builds a ThrowableResponse whose handler performs one redirect write with
the given status and the location converted to a string, and whose message
is the interpolation of the location into the redirect template. -/
def ThrowableRedirect.construct (location : Location) (status : RedirectStatus) :
    ThrowableResponse :=
  { handler := fun _ => [ResEffect.redirectWrite status.val location.toString]
    message := "Redirecting to " ++ location.toString }

/-- Construction of a ThrowableRedirect from an arbitrary numeric status:
the constructor parameter type restricts the status to the five enumerated
codes, so a construction site offering any other number is rejected before
the instance exists; embedded as a fallible construction that checks
membership and fails otherwise. -/
def ThrowableRedirect.tryConstruct (location : Location) (status : Nat) :
    Except String ThrowableResponse :=
  if h : status ∈ redirectStatuses then
    Except.ok (ThrowableRedirect.construct location ⟨status, h⟩)
  else
    Except.error ("TypeError: invalid redirect status " ++ toString status)

/-- ThrowableRedirect construction with the status omitted: the constructor
declares the default value 302 for its status parameter
(src/src/index.ts line 130). -/
def ThrowableRedirect.constructDefault (location : Location) : ThrowableResponse :=
  ThrowableRedirect.construct location ⟨302, by decide⟩

/-- The ThrowableJson constructor (src/src/index.ts lines 195 to 197):
builds a ThrowableResponse whose handler chains res.status(status) and
res.json(json), and whose message interpolates the status into the JSON
template.  The json and status arguments are stored unchanged: no check of
either is performed. -/
def ThrowableJson.construct (json : JsonValue) (status : Int) : ThrowableResponse :=
  { handler := fun _ => [ResEffect.setStatus status, ResEffect.jsonWrite json]
    message := "JSON response: " ++ toString status }

/-- ThrowableJson construction with the status omitted: the constructor
declares the default value 200 for its status parameter
(src/src/index.ts line 195). -/
def ThrowableJson.constructDefault (json : JsonValue) : ThrowableResponse :=
  ThrowableJson.construct json 200

/-- A caught value that is not an instance of ThrowableResponse (an
ordinary error or any other thrown value), modelled opaquely. -/
structure NonSignal where
  payload : String

/-- A value arriving on the Express error channel: either an instance of
ThrowableResponse (this covers ThrowableRedirect and ThrowableJson, whose
constructed values are ThrowableResponse values) or anything else. -/
inductive CaughtValue where
  | response (t : ThrowableResponse)
  | nonResponse (v : NonSignal)

/-- One action taken by the error-handling middleware: either it invoked
the handler of the caught signal (recording the response effects the
handler performs), or it invoked the continuation next with a value. -/
inductive DispatchEvent where
  | handlerInvoked (effects : List ResEffect)
  | nextInvoked (v : CaughtValue)

/-- The throwableResponses middleware (src/src/index.ts lines 25 to 28):
if the caught value is an instance of ThrowableResponse it invokes the
value's handler on the request, otherwise it invokes next with the caught
value. -/
def throwableResponses (err : CaughtValue) (req : Request) : List DispatchEvent :=
  match err with
  | CaughtValue.response t => [DispatchEvent.handlerInvoked (t.handler req)]
  | CaughtValue.nonResponse _ => [DispatchEvent.nextInvoked err]

/-- JSON string escaping as performed by the host serializer for the
characters the model covers: quote, backslash, and common control
characters. -/
def escapeChar (c : Char) : String :=
  if c = '"' then "\\\""
  else if c = '\\' then "\\\\"
  else if c = '\n' then "\\n"
  else if c = '\r' then "\\r"
  else if c = '\t' then "\\t"
  else String.singleton c

/-- A JSON string literal: the escaped characters wrapped in quotes. -/
def jsonQuote (s : String) : String :=
  "\"" ++ String.join (s.toList.map escapeChar) ++ "\""

mutual

/-- The canonical JSON serialization (the host JSON.stringify) of a JSON
value. -/
def serializeJson : JsonValue → String
  | JsonValue.str s => jsonQuote s
  | JsonValue.num n => toString n
  | JsonValue.bool b => if b then "true" else "false"
  | JsonValue.null => "null"
  | JsonValue.arr elems => "[" ++ serializeElems elems ++ "]"
  | JsonValue.obj fields => "\x7b" ++ serializeFields fields ++ "\x7d"

/-- Comma-separated serialization of the elements of a JSON array. -/
def serializeElems : List JsonValue → String
  | [] => ""
  | [v] => serializeJson v
  | v :: rest => serializeJson v ++ "," ++ serializeElems rest

/-- Comma-separated serialization of the fields of a JSON object. -/
def serializeFields : List (String × JsonValue) → String
  | [] => ""
  | [(k, v)] => jsonQuote k ++ ":" ++ serializeJson v
  | (k, v) :: rest => jsonQuote k ++ ":" ++ serializeJson v ++ "," ++ serializeFields rest

end

/-- The observable response state accumulated by interpreting an effect
trace against the host response sink: the resulting status, content type,
body, redirect target, and the number of invocations of each primitive. -/
structure ResState where
  status : Option Int
  contentType : Option String
  body : Option String
  location : Option String
  statusWrites : Nat
  bodyWrites : Nat
  redirectWrites : Nat
  nextCalls : Nat
deriving Repr, DecidableEq

/-- The response state before any effect runs. -/
def initialResState : ResState :=
  { status := none
    contentType := none
    body := none
    location := none
    statusWrites := 0
    bodyWrites := 0
    redirectWrites := 0
    nextCalls := 0 }

/-- Host semantics of one response-sink primitive: res.status records the
status; res.json sets the JSON content type and writes the serialized body;
res.redirect records the status and target of the redirect; next counts a
continuation call. -/
def applyEffect (s : ResState) : ResEffect → ResState
  | ResEffect.setStatus code =>
      { s with status := some code, statusWrites := s.statusWrites + 1 }
  | ResEffect.jsonWrite v =>
      { s with contentType := some "application/json"
               body := some (serializeJson v)
               bodyWrites := s.bodyWrites + 1 }
  | ResEffect.redirectWrite code target =>
      { s with status := some (Int.ofNat code)
               location := some target
               redirectWrites := s.redirectWrites + 1 }
  | ResEffect.nextCall =>
      { s with nextCalls := s.nextCalls + 1 }

/-- Run a handler on a request and interpret its effect trace from the
initial response state. -/
def runHandler (h : Handler) (req : Request) : ResState :=
  (h req).foldl applyEffect initialResState

/-- A sample request used by the witness theorems. -/
def sampleReq : Request := ⟨0⟩

/-- A sample handler used by the witness theorems. -/
def sampleHandler : Handler := fun _ => [ResEffect.setStatus 200]

/-- A sample signal used by the witness theorems. -/
def sampleSignal : ThrowableResponse :=
  ThrowableResponse.construct sampleHandler none

/-- A sample location used by the witness theorems. -/
def sampleLocation : Location := Location.str "/login"

/-- A string whose left part has positive length is not empty. -/
theorem append_ne_empty (s t : String) (h : 0 < s.length) : s ++ t ≠ "" := by
  intro heq
  have hlen := congrArg String.length heq
  rw [String.length_append, String.length_empty] at hlen
  omega

/-- C1: the dispatch interceptor invoked with an instance of
ThrowableResponse invokes that signal's handler on the request and does
nothing else (in particular it never invokes the continuation), and invoked
with any non-signal value it invokes the continuation exactly once with
that same value unchanged and invokes no handler. -/
theorem dispatch_signal_executes_handler_nonsignal_forwards
    (err : CaughtValue) (req : Request) :
    (∀ t, err = CaughtValue.response t →
      throwableResponses err req = [DispatchEvent.handlerInvoked (t.handler req)]) ∧
    (∀ v, err = CaughtValue.nonResponse v →
      throwableResponses err req = [DispatchEvent.nextInvoked err]) := by
  constructor
  · intro t ht
    subst ht
    rfl
  · intro v hv
    subst hv
    rfl

/-- C1 witness: dispatching a concrete signal yields exactly the invocation
of its handler. -/
theorem dispatch_signal_executes_handler_nonsignal_forwards_witness :
    throwableResponses (CaughtValue.response sampleSignal) sampleReq
      = [DispatchEvent.handlerInvoked (sampleSignal.handler sampleReq)] :=
  (dispatch_signal_executes_handler_nonsignal_forwards
    (CaughtValue.response sampleSignal) sampleReq).1 sampleSignal rfl

/-- C2: constructing a ThrowableRedirect with a status outside the
enumerated set fails at construction with an error; no signal value is
produced, so nothing can be raised or invoked. -/
theorem redirect_invalid_status_construction_fails
    (l : Location) (s : Nat) (h : s ∉ redirectStatuses) :
    ThrowableRedirect.tryConstruct l s
      = Except.error ("TypeError: invalid redirect status " ++ toString s) := by
  unfold ThrowableRedirect.tryConstruct
  rw [dif_neg h]

/-- C2 witness: construction with status 299 fails. -/
theorem redirect_invalid_status_construction_fails_witness :
    ThrowableRedirect.tryConstruct sampleLocation 299
      = Except.error ("TypeError: invalid redirect status " ++ toString 299) :=
  redirect_invalid_status_construction_fails sampleLocation 299 (by decide)

/-- C3: for every JSON value V and status S, the handler of
ThrowableJson(V, S) performs exactly one status write equal to S followed
by exactly one body write and nothing else, and running it leaves the
response with status S, content type application/json, body the canonical
JSON serialization of V, and no redirect write or continuation call. -/
theorem json_terminal_action_writes_status_then_body
    (v : JsonValue) (s : Int) (req : Request) :
    (ThrowableJson.construct v s).handler req
        = [ResEffect.setStatus s, ResEffect.jsonWrite v] ∧
    runHandler (ThrowableJson.construct v s).handler req
        = { status := some s
            contentType := some "application/json"
            body := some (serializeJson v)
            location := none
            statusWrites := 1
            bodyWrites := 1
            redirectWrites := 0
            nextCalls := 0 } :=
  ⟨rfl, rfl⟩

/-- C4: for every status in the enumerated redirect set and every location,
construction succeeds and the handler performs exactly one redirect write
carrying that status and the location's canonical string form, and no other
effect. -/
theorem redirect_terminal_action_single_redirect_write
    (l : Location) (s : Nat) (h : s ∈ redirectStatuses) (req : Request) :
    ∃ t, ThrowableRedirect.tryConstruct l s = Except.ok t ∧
      t.handler req = [ResEffect.redirectWrite s l.toString] ∧
      runHandler t.handler req
        = { status := some (Int.ofNat s)
            contentType := none
            body := none
            location := some l.toString
            statusWrites := 0
            bodyWrites := 0
            redirectWrites := 1
            nextCalls := 0 } := by
  refine ⟨ThrowableRedirect.construct l ⟨s, h⟩, ?_, rfl, rfl⟩
  unfold ThrowableRedirect.tryConstruct
  rw [dif_pos h]

/-- C4 witness: a concrete 301 redirect to /login issues exactly one
redirect write with code 301 and target /login. -/
theorem redirect_terminal_action_single_redirect_write_witness :
    ∃ t, ThrowableRedirect.tryConstruct sampleLocation 301 = Except.ok t ∧
      t.handler sampleReq = [ResEffect.redirectWrite 301 sampleLocation.toString] ∧
      runHandler t.handler sampleReq
        = { status := some (Int.ofNat 301)
            contentType := none
            body := none
            location := some sampleLocation.toString
            statusWrites := 0
            bodyWrites := 0
            redirectWrites := 1
            nextCalls := 0 } :=
  redirect_terminal_action_single_redirect_write sampleLocation 301 (by decide) sampleReq

/-- C5 counterexample: a ThrowableResponse constructed with an explicitly
passed empty message has an empty diagnosticMessage, because the
nullish-coalescing default only replaces an absent argument, so it is not
the case that every constructed signal has a non-empty diagnosticMessage. -/
theorem empty_message_counterexample :
    (ThrowableResponse.construct (fun _ => []) (some "")).message = "" := rfl

/-- C5 amended: a constructed signal's diagnosticMessage is the passed
message when one is passed (hence non-empty exactly when the caller's
message is), and the non-empty generic placeholder when the message is
omitted; the messages auto-generated by ThrowableRedirect and ThrowableJson
are always non-empty. -/
theorem diagnostic_message_nonempty_amended
    (h : Handler) (msg? : Option String) (l : Location) (rs : RedirectStatus)
    (v : JsonValue) (st : Int) :
    (msg? = none →
      (ThrowableResponse.construct h msg?).message = "Not an error: response thrown" ∧
      (ThrowableResponse.construct h msg?).message ≠ "") ∧
    (∀ m, msg? = some m → (ThrowableResponse.construct h msg?).message = m) ∧
    (ThrowableRedirect.construct l rs).message ≠ "" ∧
    (ThrowableJson.construct v st).message ≠ "" := by
  refine ⟨?_, ?_, ?_, ?_⟩
  · intro hnone
    subst hnone
    refine ⟨rfl, ?_⟩
    show "Not an error: response thrown" ≠ ""
    decide
  · intro m hsome
    subst hsome
    rfl
  · exact append_ne_empty "Redirecting to " l.toString (by decide)
  · exact append_ne_empty "JSON response: " (toString st) (by decide)

/-- C5 witness: with the message omitted, the diagnosticMessage is the
generic placeholder. -/
theorem diagnostic_message_nonempty_amended_witness :
    (ThrowableResponse.construct sampleHandler none).message
      = "Not an error: response thrown" :=
  ((diagnostic_message_nonempty_amended sampleHandler none sampleLocation
      ⟨301, by decide⟩ JsonValue.null 404).1 rfl).1

/-- C6: a ThrowableRedirect constructed with no explicit status produces a
signal whose handler performs a redirect with status 302. -/
theorem redirect_default_status_302 (l : Location) (req : Request) :
    (ThrowableRedirect.constructDefault l).handler req
        = [ResEffect.redirectWrite 302 l.toString] ∧
    (runHandler (ThrowableRedirect.constructDefault l).handler req).status
        = some 302 :=
  ⟨rfl, rfl⟩

/-- C7: the ThrowableJson constructor accepts every integer status without
enumeration and every payload without shape validation, storing both
unchanged in the handler it builds, and the status defaults to 200 when
omitted. -/
theorem json_constructor_unvalidated_status_default_200
    (v : JsonValue) (s : Int) (req : Request) :
    (ThrowableJson.construct v s).handler req
        = [ResEffect.setStatus s, ResEffect.jsonWrite v] ∧
    ThrowableJson.constructDefault v = ThrowableJson.construct v 200 :=
  ⟨rfl, rfl⟩

/-- C8: the diagnosticMessage of a constructed ThrowableRedirect is exactly
the string "Redirecting to " followed by the location's string form. -/
theorem redirect_diagnostic_message_format (l : Location) (rs : RedirectStatus) :
    (ThrowableRedirect.construct l rs).message
      = "Redirecting to " ++ l.toString := rfl

/-- C9: the redirect handler is a deterministic function of location and
status fixed at construction: equal construction inputs give identical
effect traces and identical response states for all requests. -/
theorem redirect_terminal_action_deterministic
    (l₁ l₂ : Location) (s₁ s₂ : RedirectStatus) (req req' : Request)
    (hl : l₁ = l₂) (hs : s₁ = s₂) :
    (ThrowableRedirect.construct l₁ s₁).handler req
      = (ThrowableRedirect.construct l₂ s₂).handler req' ∧
    runHandler (ThrowableRedirect.construct l₁ s₁).handler req
      = runHandler (ThrowableRedirect.construct l₂ s₂).handler req' := by
  subst hl
  subst hs
  exact ⟨rfl, rfl⟩

/-- C9 witness: two concrete equal constructions give identical effects for
two different requests. -/
theorem redirect_terminal_action_deterministic_witness :
    (ThrowableRedirect.construct sampleLocation ⟨301, by decide⟩).handler sampleReq
      = (ThrowableRedirect.construct sampleLocation ⟨301, by decide⟩).handler ⟨1⟩ :=
  (redirect_terminal_action_deterministic sampleLocation sampleLocation
    ⟨301, by decide⟩ ⟨301, by decide⟩ sampleReq ⟨1⟩ rfl rfl).1

/-- C10: every signal built by the three constructors carries a JsError
part (it is an instance of the host standard Error type) whose message
field equals its diagnosticMessage: the passed message, or the generic
default when omitted, for ThrowableResponse, and the auto-generated
messages for ThrowableRedirect and ThrowableJson. -/
theorem signals_are_error_instances
    (h : Handler) (msg? : Option String) (l : Location) (rs : RedirectStatus)
    (v : JsonValue) (st : Int) :
    (ThrowableResponse.construct h msg?).toJsError.message
        = msg?.getD "Not an error: response thrown" ∧
    (ThrowableResponse.construct h none).toJsError.message
        = "Not an error: response thrown" ∧
    (ThrowableRedirect.construct l rs).toJsError.message
        = "Redirecting to " ++ l.toString ∧
    (ThrowableJson.construct v st).toJsError.message
        = "JSON response: " ++ toString st :=
  ⟨rfl, rfl, rfl, rfl⟩

end ThrowRes
